import Mathlib

/-!
Verification of the slot-filling order-status controller and the bounded
conversation memory of the customer-service agent repository.

The Python sources are shallowly embedded:

* `src/memory/manage.py` (`StateManager`)            → `SlotStore` operations
* `src/agents/delegates/order_status.py`             → extraction functions,
  `find_order`, `generate_order_response`, `process`
* `src/memory/conversation.py` (`ConversationMemory`) → `add_interaction`,
  `updateContext`

Strings are modelled as Lean `String` (all inputs of interest are ASCII, so
Python `str.lower`, `\d`, `\w` and `str.isdigit` coincide with the ASCII
versions used here).  The language-model call and the JSON decoder are
external collaborators and appear as function parameters (`llm`, `jp`).
-/

namespace CustomerSvc

/-! ## Character helpers (Python regex classes, ASCII fragment) -/

/-- Python regex `\w` (ASCII): letters, digits and underscore. -/
def isWordChar (c : Char) : Bool := c.isAlphanum || c = '_'

/-- Characters allowed in the local part of the e-mail regex
`[A-Za-z0-9._%+-]`. -/
def emailLocalChar (c : Char) : Bool :=
  c.isAlphanum || c = '.' || c = '_' || c = '%' || c = '+' || c = '-'

/-- Characters allowed in the domain part of the e-mail regex
`[A-Za-z0-9.-]`. -/
def emailDomainChar (c : Char) : Bool := c.isAlphanum || c = '.' || c = '-'

/-- Characters allowed in the top-level-domain part `[A-Z|a-z]` (the class
literally contains the bar character). -/
def emailTldChar (c : Char) : Bool := c.isAlpha || c = '|'

/-! ## `extract_order_number_from_text` (order_status.py, lines 38-55)

`re.search(r"#W\d+", text)` followed by `re.search(r"\bW\d+\b", text)`,
prepending `#` to a match of the second pattern. -/

/-- Attempt the pattern `#W\d+` anchored at the head of `l` (greedy `\d+`). -/
def hashMatch (l : List Char) : Option (List Char) :=
  match l with
  | a :: b :: d :: rest =>
    if a = '#' ∧ b = 'W' ∧ d.isDigit then
      some ('#' :: 'W' :: d :: rest.takeWhile Char.isDigit)
    else none
  | _ => none

/-- Leftmost search for `#W\d+` (advance one position on failure). -/
def findHashW : List Char → Option (List Char)
  | [] => none
  | c :: cs =>
    match hashMatch (c :: cs) with
    | some m => some m
    | none => findHashW cs

/-- Word-boundary test for the position after a greedy `\d+` run: the regex
`\bW\d+\b` succeeds only when the run is followed by a non-word character or
the end of the text (backtracking inside `\d+` can never create a boundary
because digits are word characters). -/
def boundaryOk : List Char → Bool
  | [] => true
  | c :: _ => !isWordChar c

/-- Attempt the pattern `\bW\d+\b` anchored at the head of `l`; `prevWord`
says whether the character before `l` is a word character (false at the start
of the text). -/
def wbMatch (prevWord : Bool) (l : List Char) : Option (List Char) :=
  match l with
  | [] => none
  | c :: cs =>
    if prevWord = false ∧ c = 'W' then
      let ds := cs.takeWhile Char.isDigit
      if ds ≠ [] ∧ boundaryOk (cs.dropWhile Char.isDigit) then
        some ('W' :: ds)
      else none
    else none

/-- Leftmost search for `\bW\d+\b`. -/
def findWb (prevWord : Bool) : List Char → Option (List Char)
  | [] => none
  | c :: cs =>
    match wbMatch prevWord (c :: cs) with
    | some m => some m
    | none => findWb (isWordChar c) cs

/-- `OrderStatusAgent.extract_order_number_from_text`: try `#W\d+` first,
then `\bW\d+\b` with a `#` prepended for consistency; `None` otherwise. -/
def extract_order_number_from_text (text : String) : Option String :=
  match findHashW text.toList with
  | some m => some (String.mk m)
  | none =>
    match findWb false text.toList with
    | some m => some (String.mk ('#' :: m))
    | none => none

/-! ## `extract_email_from_text` (order_status.py, lines 30-36)

`re.search(r"\b[A-Za-z0-9._%+-]+@[A-Za-z0-9.-]+\.[A-Z|a-z]{2,}\b", text)`.
The local part `[...]+` and `@` need no backtracking (`@` is not in the
class); the domain `[A-Za-z0-9.-]+` and the final `[A-Z|a-z]{2,}` are greedy
with backtracking, tried longest first below. -/

/-- Word-boundary test between a last matched character and the following
character (end of text counts as a non-word character). -/
def boundaryAfter (lastC : Char) (next : Option Char) : Bool :=
  isWordChar lastC != (match next with | some c => isWordChar c | none => false)

/-- Try the trailing `[A-Z|a-z]{2,}\b` with exactly `len` characters taken
from the maximal TLD run `t` (followed by `rest`), longest first. -/
def tryTldLen (t rest : List Char) : Nat → Option Nat
  | 0 => none
  | n + 1 =>
    let len := n + 1
    if len < 2 then none
    else
      match t.get? (len - 1) with
      | some lc =>
        let next := if len < t.length then t.get? len else rest.head?
        if boundaryAfter lc next then some len else tryTldLen t rest n
      | none => tryTldLen t rest n

/-- Try the domain `[A-Za-z0-9.-]+` with exactly `k` characters taken from
the maximal domain run `d` (followed by `rest`), longest first, then the
literal dot and the TLD. -/
def tryDomainLen (lp d rest : List Char) : Nat → Option (List Char)
  | 0 => none
  | k0 + 1 =>
    let k := k0 + 1
    match d.drop k ++ rest with
    | '.' :: r4 =>
      let t := r4.takeWhile emailTldChar
      let r5 := r4.drop t.length
      match tryTldLen t r5 t.length with
      | some m => some (lp ++ '@' :: d.take k ++ '.' :: t.take m)
      | none => tryDomainLen lp d rest k0
    | _ => tryDomainLen lp d rest k0

/-- Attempt the full e-mail pattern anchored at the head of `l` (the leading
`\b` has already been checked by the caller). -/
def tryEmailFrom (l : List Char) : Option (List Char) :=
  let lp := l.takeWhile emailLocalChar
  match l.drop lp.length with
  | '@' :: r2 =>
    let d := r2.takeWhile emailDomainChar
    tryDomainLen lp d (r2.drop d.length) d.length
  | _ => none

/-- Leftmost search for the e-mail pattern; `prev` is the character before
the current position (none at the start). -/
def searchEmail (prev : Option Char) : List Char → Option (List Char)
  | [] => none
  | c :: cs =>
    let prevWord := match prev with | some p => isWordChar p | none => false
    if emailLocalChar c ∧ (isWordChar c != prevWord) then
      match tryEmailFrom (c :: cs) with
      | some m => some m
      | none => searchEmail (some c) cs
    else searchEmail (some c) cs

/-- `OrderStatusAgent.extract_email_from_text`. -/
def extract_email_from_text (text : String) : Option String :=
  (searchEmail none text.toList).map String.mk

/-! ## Python truthiness and small string helpers -/

/-- Python truthiness of an optional string (`None` and `""` are falsy). -/
def truthyS : Option String → Bool
  | none => false
  | some s => s != ""

/-- Python `a or b` on optional strings. -/
def pyOr (a b : Option String) : Option String := if truthyS a then a else b

/-- The string value of a truthy optional (used only under a truthiness
guard). -/
def tval (a : Option String) : String := a.getD ""

/-- Python `str.lower` (ASCII). -/
def pyLower (s : String) : String := String.mk (s.toList.map Char.toLower)

/-- Python `str.title` (ASCII): a letter after a non-letter is uppercased,
other letters lowercased. -/
def titleAux : Bool → List Char → List Char
  | _, [] => []
  | prevAlpha, c :: cs =>
    if c.isAlpha then (if prevAlpha then c.toLower else c.toUpper) :: titleAux true cs
    else c :: titleAux false cs

/-- Python `str.title` on a string. -/
def pyTitle (s : String) : String := String.mk (titleAux false s.toList)

/-- Whitespace-word splitter matching Python `str.split()` (no argument):
runs of whitespace separate words, leading and trailing whitespace ignored. -/
def wordsAux (acc : List Char) : List Char → List (List Char)
  | [] => if acc = [] then [] else [acc.reverse]
  | c :: cs =>
    if c.isWhitespace then
      if acc = [] then wordsAux [] cs else acc.reverse :: wordsAux [] cs
    else wordsAux (c :: acc) cs

/-- `len(query.split())`. -/
def wordCount (q : String) : Nat := (wordsAux [] q.toList).length

/-- Python `str.strip()` on a character list. -/
def pyStripL (l : List Char) : List Char :=
  ((l.dropWhile Char.isWhitespace).reverse.dropWhile Char.isWhitespace).reverse

/-- `query.strip().isdigit() or any(char.isdigit() for char in query)`
(order_status.py line 217): the heuristic for "the input might be an
attempted order number in the wrong format". -/
def attemptedOrderCond (q : String) : Bool :=
  (let t := pyStripL q.toList
   decide (t ≠ []) && t.all Char.isDigit) || q.toList.any Char.isDigit

/-- Python substring test `needle in hay` over character lists. -/
def containsList (needle : List Char) : List Char → Bool
  | [] => needle.isEmpty
  | c :: cs => needle.isPrefixOf (c :: cs) || containsList needle cs

/-- Python substring test `x in m` on strings. -/
def containsSub (m x : String) : Bool := containsList x.toList m.toList

/-! ## SlotStore (`StateManager`, memory/manage.py)

An ordered mapping; `add_entry` overwrites in place (`OrderedDict`
assignment keeps the insertion position of an existing key). -/

/-- The `StateManager._state` ordered dictionary. -/
abbrev SlotStore := List (String × String)

/-- `StateManager.add_entry` (the keys used by the controller are the
non-empty literals `"email"` and `"order_number"`, so the empty-key
`ValueError` path is unreachable). -/
def add_entry (st : SlotStore) (k v : String) : SlotStore :=
  if st.any (fun p => p.1 == k) then
    st.map (fun p => if p.1 == k then (k, v) else p)
  else st ++ [(k, v)]

/-- `StateManager.get_value`. -/
def get_value (st : SlotStore) (k : String) : Option String :=
  (st.find? (fun p => p.1 == k)).map Prod.snd

/-- `StateManager.clear_state`. -/
def clear_state (_ : SlotStore) : SlotStore := []

/-! ## Data for the order-status agent -/

/-- One record of `data/customer_orders.json` (external data, so every field
is optional, matching the `dict.get` defaults in the code). -/
structure OrderRec where
  Email : Option String
  OrderNumber : Option String
  Status : Option String
  TrackingNumber : Option String
  CustomerName : Option String
  ProductsOrdered : Option (List String)
deriving DecidableEq

/-- The `entities` mapping passed by the coordinator in message metadata. -/
structure EntitiesMeta where
  Email : Option String
  OrderNumber : Option String
deriving DecidableEq

/-- Result of `llm_adapter.chat`: the external model call. -/
structure LLMResponse where
  success : Bool
  content : String
deriving DecidableEq

/-- The fields read from a decoded order-extraction JSON object. -/
structure JsonOut where
  email : Option String
  order_number : Option String
deriving DecidableEq

/-- `src/common/message.py` `Message` (metadata elided; the order-status
agent only reads `metadata["entities"]`, passed separately). -/
structure Message where
  content : String
  sender : String
  recipient : String
deriving DecidableEq

/-- Which return site of `OrderStatusAgent.process` produced the turn
result (instrumentation; one constructor per `return` statement). -/
inductive Action where
  | completed (found : Bool)
  | storeEmailAskOrder
  | storeOrderAskEmail
  | invalidOrderFormat
  | needValidEmail
  | askBoth
  | askEmailOnly
  | askOrderOnly
deriving DecidableEq

/-- Observable outcome of one `process` call: the returned message, the
SlotStore afterwards, the completion attempt (email, order, found?) if the
order lookup ran, whether the LLM fallback extraction ran, and the return
site. -/
structure TurnResult where
  message : Message
  state : SlotStore
  lookup : Option (String × String × Bool)
  llmCalled : Bool
  action : Action

/-- `OrderStatusAgent.find_order`: first order whose e-mail matches case
insensitively and whose order number matches exactly. -/
def find_order (orders : List OrderRec) (email order_number : String) : Option OrderRec :=
  orders.find? (fun o =>
    pyLower (o.Email.getD "") == pyLower email && o.OrderNumber.getD "" == order_number)

/-! ## Message templates (order_status.py, verbatim) -/

/-- The not-found message of `_generate_order_response`. -/
def not_found_msg (order_number email : String) : String :=
  "🏔️ I couldn\x27t find order **" ++ (order_number ++ ("** for `" ++ (email ++
    "` in our system. \n\nCould you double-check your order number? Our order numbers typically look like #W001, #W002, etc. You can also try a different email if you used multiple addresses.\n\nOnward into the unknown! 🌟")))

/-- The tracking link built from a tracking number. -/
def tracking_link (trk : String) : String :=
  "https://tools.usps.com/go/TrackConfirmAction?tLabels=" ++ trk

/-- The success message of `_generate_order_response`. -/
def status_message (ord : OrderRec) (email order_number : String) : String :=
  let status := ord.Status.getD "unknown"
  let customer_name := ord.CustomerName.getD "valued customer"
  let products := ord.ProductsOrdered.getD []
  let base :=
    "🏔️ Hello " ++ (customer_name ++ ("! Here\x27s your order status:\n\n📋 Order: " ++
      (order_number ++ ("\n📧 Email: " ++ (email ++ ("\n🎒 Products: " ++
      (String.intercalate ", " products ++ ("\n📊 Status: " ++ (pyTitle status ++ "\n")))))))))
  let withTracking :=
    if truthyS ord.TrackingNumber then
      base ++ ("🚚 Tracking: " ++ (tval ord.TrackingNumber ++
        ("\n📦 Track your package: " ++ tracking_link (tval ord.TrackingNumber))))
    else base
  withTracking ++ "\n\n🌟 Thanks for choosing Adventure Outfitters! Onward into the unknown! 🏔️"

/-- Ask-for-order message after storing a standalone e-mail. -/
def email_msg (e : String) : String :=
  "🏔️ Got it! I have your email: " ++ (e ++
    ". Now I need your order number (like #W001, #W002, etc.) to find your gear! 🌟")

/-- Ask-for-email message after storing an order number. -/
def order_msg (o : String) : String :=
  "🏔️ Perfect! I have your order number: " ++ (o ++
    ". Now I need the email address associated with this order. 🌟")

/-- Format-correction message when a stored e-mail exists and the input
looks like an attempted order number in the wrong format. -/
def invalid_order_msg (e : String) : String :=
  "🏔️ I have your email (" ++ (e ++
    ") but that doesn\x27t look like one of our order numbers. Our order numbers start with \x27W\x27 and look like #W001, #W002, etc. Could you check your order confirmation email for the correct format? 🌟")

/-- Message when a stored order exists but no valid e-mail was supplied. -/
def email_needed_msg (o : String) : String :=
  "🏔️ I have your order number (" ++ (o ++
    ") but I need a valid email address to look up your order. Could you provide the email you used when placing the order? 🌟")

/-- Message when both pieces are missing. -/
def instructions_msg : String :=
  "🏔️ To check your order status, I need your email address and order number. You can say something like: \x27Check order #W001 for john.doe@example.com\x27 🌟"

/-- Message when only the e-mail is missing. -/
def missing_email_msg (o : String) : String :=
  "🏔️ I have your order number (" ++ (o ++
    ") but I still need your email address. What email did you use for this order? 🌟")

/-- Message when only the order number is missing. -/
def missing_order_msg (e : String) : String :=
  "🏔️ I have your email (" ++ (e ++
    ") but I still need your order number. What\x27s your order number? 🌟")

/-- Wrap a content string in the agent-to-coordinator message envelope. -/
def mkAgentMsg (name content : String) : Message :=
  { content := content, sender := name, recipient := "AdventureOutfittersAgent" }

/-! ## `extract_order_info` (order_status.py, lines 57-100)

The LLM call is the parameter `llm`; the JSON decoder (`json.loads`
restricted to the two fields read) is the parameter `jp`, with `none`
modelling a decode failure (the caught `JSONDecodeError`/`KeyError`). -/

/-- The JSON-candidate selection: the whole content when it starts with a
left brace and ends with a right brace, otherwise the leftmost-greedy match
of the DOTALL pattern `\{.*\}` (first left brace through last right
brace). -/
def jsonCandidate (content : String) : Option String :=
  let l := content.toList
  if l.head? == some '{' && l.getLast? == some '}' then some content
  else
    match l.findIdx? (· = '{') with
    | none => none
    | some i =>
      match l.reverse.findIdx? (· = '}') with
      | none => none
      | some rj =>
        let j := l.length - 1 - rj
        if i < j then some (String.mk ((l.drop i).take (j - i + 1))) else none

/-- `OrderStatusAgent.extract_order_info`: on model failure or unparseable
content the result degrades to `(none, none)`; exceptions are caught in the
source, so the embedding is total. -/
def extract_order_info (jp : String → Option JsonOut) (llm : String → LLMResponse)
    (query : String) : Option String × Option String :=
  let response := llm query
  if response.success then
    match jsonCandidate response.content with
    | none => (none, none)
    | some s =>
      match jp s with
      | none => (none, none)
      | some o => (o.email, o.order_number)
  else (none, none)

/-- `OrderStatusAgent._generate_order_response`: look the order up; clear
the state only on success, leave it untouched on not-found. -/
def generate_order_response (orders : List OrderRec) (name : String) (st : SlotStore)
    (email order_number : String) (llmFlag : Bool) : TurnResult :=
  match find_order orders email order_number with
  | none =>
    { message := mkAgentMsg name (not_found_msg order_number email),
      state := st, lookup := some (email, order_number, false),
      llmCalled := llmFlag, action := .completed false }
  | some ord =>
    { message := mkAgentMsg name (status_message ord email order_number),
      state := clear_state st, lookup := some (email, order_number, true),
      llmCalled := llmFlag, action := .completed true }

/-- The final resolution step of `OrderStatusAgent.process` (order_status.py,
lines 243-251): call the LLM fallback only when the current turn resolved
neither value, then fall back to the stored values (Python `or`). -/
structure FinalResolution where
  llmUsed : Bool
  final_email : Option String
  final_order : Option String

/-- Lines 243-251 of order_status.py. -/
def resolveFinal (jp : String → Option JsonOut) (llm : String → LLMResponse) (query : String)
    (email_from_current order_from_current stored_email stored_order : Option String) :
    FinalResolution :=
  let llmUsed := !truthyS email_from_current && !truthyS order_from_current
  let llmPair := if llmUsed then extract_order_info jp llm query else (none, none)
  let email2 := if llmUsed then pyOr email_from_current llmPair.1 else email_from_current
  let order2 := if llmUsed then pyOr order_from_current llmPair.2 else order_from_current
  { llmUsed := llmUsed,
    final_email := pyOr email2 stored_email,
    final_order := pyOr order2 stored_order }

/-- The guard chain of `OrderStatusAgent.process` (order_status.py, lines
176-294) after the four local values of lines 159-174 have been computed:
`email_from_current`/`order_from_current` are the per-turn resolved values
(coordinator entities with text-extraction fallback) and
`stored_email`/`stored_order` the SlotStore contents.  Translated branch
for branch, Python truthiness included. -/
def process_resolved (jp : String → Option JsonOut) (llm : String → LLMResponse)
    (orders : List OrderRec) (name : String) (st : SlotStore) (query : String)
    (email_from_current order_from_current stored_email stored_order : Option String) :
    TurnResult :=
  if truthyS email_from_current && truthyS order_from_current then
    generate_order_response orders name st (tval email_from_current) (tval order_from_current) false
  else if truthyS stored_email && truthyS order_from_current then
    generate_order_response orders name st (tval stored_email) (tval order_from_current) false
  else if truthyS stored_order && truthyS email_from_current then
    generate_order_response orders name st (tval email_from_current) (tval stored_order) false
  else if truthyS email_from_current && !truthyS order_from_current &&
      query.toList.contains '@' && wordCount query == 1 then
    { message := mkAgentMsg name (email_msg (tval email_from_current)),
      state := add_entry st "email" (tval email_from_current),
      lookup := none, llmCalled := false, action := .storeEmailAskOrder }
  else if truthyS order_from_current && !truthyS email_from_current then
    { message := mkAgentMsg name (order_msg (tval order_from_current)),
      state := add_entry st "order_number" (tval order_from_current),
      lookup := none, llmCalled := false, action := .storeOrderAskEmail }
  else if truthyS stored_email && !truthyS order_from_current && !truthyS email_from_current &&
      attemptedOrderCond query then
    { message := mkAgentMsg name (invalid_order_msg (tval stored_email)),
      state := st, lookup := none, llmCalled := false, action := .invalidOrderFormat }
  else if truthyS stored_order && !truthyS email_from_current && !truthyS order_from_current then
    { message := mkAgentMsg name (email_needed_msg (tval stored_order)),
      state := st, lookup := none, llmCalled := false, action := .needValidEmail }
  else
    let f := resolveFinal jp llm query email_from_current order_from_current
      stored_email stored_order
    if truthyS f.final_email && truthyS f.final_order then
      generate_order_response orders name st (tval f.final_email) (tval f.final_order) f.llmUsed
    else if !truthyS f.final_email && !truthyS f.final_order then
      { message := mkAgentMsg name instructions_msg,
        state := st, lookup := none, llmCalled := f.llmUsed, action := .askBoth }
    else if !truthyS f.final_email then
      { message := mkAgentMsg name (missing_email_msg (tval f.final_order)),
        state := st, lookup := none, llmCalled := f.llmUsed, action := .askEmailOnly }
    else
      { message := mkAgentMsg name (missing_order_msg (tval f.final_email)),
        state := st, lookup := none, llmCalled := f.llmUsed, action := .askOrderOnly }

/-- `OrderStatusAgent.process` (order_status.py, lines 151-306), one turn:
resolve the per-turn values (coordinator entities first, text extraction as
fallback — Python `or`), read the stored slots, then run the guard
chain. -/
def process (jp : String → Option JsonOut) (llm : String → LLMResponse)
    (orders : List OrderRec) (name : String) (st : SlotStore)
    (query : String) (entities : EntitiesMeta) : TurnResult :=
  process_resolved jp llm orders name st query
    (pyOr entities.Email (extract_email_from_text query))
    (pyOr entities.OrderNumber (extract_order_number_from_text query))
    (get_value st "email")
    (get_value st "order_number")

/-! ## ConversationMemory (memory/conversation.py)

`key_info` is an arbitrary dictionary; the embedding keeps the six keys the
code reads as optional fields (`isSome` = key present, matching dictionary
membership) plus the `entities` key the coordinator adds and a flag for any
further keys, so that Python dict truthiness (non-emptiness) is exact. -/

/-- The `key_info` dictionary of an interaction. -/
structure KeyInfo where
  order_number : Option String
  customer_name : Option String
  products : Option (List String)
  status : Option String
  products_mentioned : Option (List String)
  promo_code : Option String
  entities : Option (List (String × String))
  otherKeys : Bool
deriving DecidableEq

/-- The empty `key_info` dictionary (`key_info or {}`). -/
def KeyInfo.empty : KeyInfo :=
  { order_number := none, customer_name := none, products := none, status := none,
    products_mentioned := none, promo_code := none, entities := none, otherKeys := false }

/-- Python truthiness of the `key_info` dictionary: it is non-empty, that
is, some key is present (a present key with a falsy value still counts). -/
def KeyInfo.truthy (k : KeyInfo) : Bool :=
  k.order_number.isSome || k.customer_name.isSome || k.products.isSome ||
  k.status.isSome || k.products_mentioned.isSome || k.promo_code.isSome ||
  k.entities.isSome || k.otherKeys

/-- Python truthiness of an optional list (`None` and `[]` are falsy). -/
def truthyL (l : Option (List String)) : Bool :=
  match l with
  | none => false
  | some xs => !xs.isEmpty

/-- One stored turn record (`interaction` dict built in
`add_interaction`). -/
structure Interaction where
  timestamp : String
  intent : String
  query : String
  entities : List (String × String)
  agent_used : String
  key_info : KeyInfo
deriving DecidableEq

/-- `entities.get(key)` on the association list. -/
def lookupAssoc (l : List (String × String)) (k : String) : Option String :=
  (l.find? (fun p => p.1 == k)).map Prod.snd

/-- The `last_order_lookup` value built by `_update_context`. -/
structure OrderInfo where
  order_number : Option String
  customer_name : Option String
  products : List String
  status : Option String
  last_checked : String
deriving DecidableEq

/-- The `_conversation_context` snapshot (the four categories the code
writes). -/
structure ConvContext where
  customer_email : Option String
  last_order_lookup : Option OrderInfo
  recent_products : Option (List String)
  last_promo_code : Option String
deriving DecidableEq

/-- The empty snapshot. -/
def ConvContext.empty : ConvContext :=
  { customer_email := none, last_order_lookup := none,
    recent_products := none, last_promo_code := none }

/-- `ConversationMemory._update_context`: updates the snapshot from the one
new interaction only. -/
def updateContext (ctx : ConvContext) (i : Interaction) : ConvContext :=
  let ctx1 :=
    if truthyS (lookupAssoc i.entities "Email") then
      { ctx with customer_email := lookupAssoc i.entities "Email" }
    else ctx
  if i.intent == "ORDER_STATUS" && i.key_info.truthy then
    let order_info : OrderInfo :=
      { order_number := i.key_info.order_number,
        customer_name := i.key_info.customer_name,
        products := i.key_info.products.getD [],
        status := i.key_info.status,
        last_checked := i.timestamp }
    let ctx2 := { ctx1 with last_order_lookup := some order_info }
    if truthyL i.key_info.products then
      { ctx2 with recent_products := i.key_info.products }
    else ctx2
  else if i.intent == "PRODUCT_RECOMMENDATION" && i.key_info.truthy then
    if truthyL i.key_info.products_mentioned then
      { ctx1 with recent_products := i.key_info.products_mentioned }
    else ctx1
  else if i.intent == "EARLY_RISERS_PROMOTION" && i.key_info.truthy then
    if truthyS i.key_info.promo_code then
      { ctx1 with last_promo_code := i.key_info.promo_code }
    else ctx1
  else ctx1

/-- The whole `ConversationMemory` state. -/
structure ConversationMemory where
  context : ConvContext
  recent : List Interaction
deriving DecidableEq

/-- A fresh `ConversationMemory`. -/
def ConversationMemory.empty : ConversationMemory :=
  { context := ConvContext.empty, recent := [] }

/-- The arguments of one `add_interaction` call (`timestamp` stands for the
`datetime.now().isoformat()` value observed during the call; `key_info`
models the optional parameter defaulting to `{}`). -/
structure AddArgs where
  timestamp : String
  intent : String
  query : String
  entities : List (String × String)
  agent_used : String
  key_info : Option KeyInfo
deriving DecidableEq

/-- The interaction record built at the top of `add_interaction`. -/
def toInteraction (a : AddArgs) : Interaction :=
  { timestamp := a.timestamp, intent := a.intent, query := a.query,
    entities := a.entities, agent_used := a.agent_used,
    key_info := a.key_info.getD KeyInfo.empty }

/-- `ConversationMemory.add_interaction`: append the record, trim the
history to the most recent 5, then update the snapshot from the new record
alone. -/
def add_interaction (m : ConversationMemory) (a : AddArgs) : ConversationMemory :=
  let i := toInteraction a
  let recent1 := m.recent ++ [i]
  let recent2 := if recent1.length > 5 then recent1.drop (recent1.length - 5) else recent1
  { context := updateContext m.context i, recent := recent2 }

/-- Run a sequence of `add_interaction` calls on a fresh memory. -/
def runMemory (args : List AddArgs) : ConversationMemory :=
  args.foldl add_interaction ConversationMemory.empty

/-- The most recent five elements of a list (`lst[-5:]`). -/
def lastFive (l : List Interaction) : List Interaction := l.drop (l.length - 5)

/-- Does `_update_context` write the `recent_products` category for this
interaction?  Read off the two guarded assignments in the source. -/
def writesRecentProducts (i : Interaction) : Bool :=
  (i.intent == "ORDER_STATUS" && i.key_info.truthy && truthyL i.key_info.products) ||
  (i.intent == "PRODUCT_RECOMMENDATION" && i.key_info.truthy && truthyL i.key_info.products_mentioned)

/-! # Theorems -/

/-! ## Shape of extracted order tokens (C10) -/

/-- A successful `#W\d+` match is a hash, a W and a non-empty digit run. -/
theorem hashMatch_shape (l m : List Char) (h : hashMatch l = some m) :
    ∃ ds : List Char, m = '#' :: 'W' :: ds ∧ ds ≠ [] ∧ ds.all Char.isDigit = true := by
  unfold hashMatch at h
  match l with
  | [] => simp at h
  | [a] => simp at h
  | [a, b] => simp at h
  | a :: b :: d :: rest =>
    simp only at h
    split at h
    · rename_i hc
      obtain ⟨ha, hb, hd⟩ := hc
      refine ⟨d :: rest.takeWhile Char.isDigit, ?_, by simp, ?_⟩
      · simpa using h.symm
      · simp [List.all_cons, hd, List.all_takeWhile]
    · simp at h

/-- Every `findHashW` result has the `#W` + digits shape. -/
theorem findHashW_shape (l m : List Char) (h : findHashW l = some m) :
    ∃ ds : List Char, m = '#' :: 'W' :: ds ∧ ds ≠ [] ∧ ds.all Char.isDigit = true := by
  induction l with
  | nil => simp [findHashW] at h
  | cons c cs ih =>
    unfold findHashW at h
    cases hm : hashMatch (c :: cs) with
    | some m0 =>
      rw [hm] at h
      cases h
      exact hashMatch_shape _ _ hm
    | none =>
      rw [hm] at h
      exact ih h

/-- A successful `\bW\d+\b` match is a W and a non-empty digit run. -/
theorem wbMatch_shape (pw : Bool) (l m : List Char) (h : wbMatch pw l = some m) :
    ∃ ds : List Char, m = 'W' :: ds ∧ ds ≠ [] ∧ ds.all Char.isDigit = true := by
  unfold wbMatch at h
  match l with
  | [] => simp at h
  | c :: cs =>
    simp only at h
    split at h
    · split at h
      · rename_i hds
        refine ⟨cs.takeWhile Char.isDigit, ?_, hds.1, List.all_takeWhile⟩
        simpa using h.symm
      · simp at h
    · simp at h

/-- Every `findWb` result has the `W` + digits shape. -/
theorem findWb_shape (pw : Bool) (l m : List Char) (h : findWb pw l = some m) :
    ∃ ds : List Char, m = 'W' :: ds ∧ ds ≠ [] ∧ ds.all Char.isDigit = true := by
  induction l generalizing pw with
  | nil => simp [findWb] at h
  | cons c cs ih =>
    unfold findWb at h
    cases hm : wbMatch pw (c :: cs) with
    | some m0 =>
      rw [hm] at h
      cases h
      exact wbMatch_shape _ _ _ hm
    | none =>
      rw [hm] at h
      exact ih _ h

/-- C10: for every input text the local reference-token extractor returns
either `none` or a string of the shape `#W` followed by a non-empty run of
digits; in particular a token written without the `#` prefix is normalized
by prepending `#` (witnessed by the input `"W001"`), so every stored or
looked-up reference token carries the `#` prefix. -/
theorem C10_order_token_shape (text : String) :
    (extract_order_number_from_text text = none ∨
      ∃ ds : List Char, extract_order_number_from_text text = some (String.mk ('#' :: 'W' :: ds)) ∧
        ds ≠ [] ∧ ds.all Char.isDigit = true) ∧
    extract_order_number_from_text "W001" = some "#W001" := by
  constructor
  · unfold extract_order_number_from_text
    cases h1 : findHashW text.toList with
    | some m =>
      obtain ⟨ds, hm, hne, hall⟩ := findHashW_shape _ _ h1
      exact Or.inr ⟨ds, by rw [hm], hne, hall⟩
    | none =>
      cases h2 : findWb false text.toList with
      | some m =>
        obtain ⟨ds, hm, hne, hall⟩ := findWb_shape _ _ _ h2
        exact Or.inr ⟨ds, by rw [hm], hne, hall⟩
      | none => exact Or.inl rfl
  · rfl

/-! ## Bounded FIFO history (C5) -/

/-- The trim performed inside `add_interaction` is exactly `lastFive`. -/
theorem add_interaction_recent (m : ConversationMemory) (a : AddArgs) :
    (add_interaction m a).recent = lastFive (m.recent ++ [toInteraction a]) := by
  unfold add_interaction lastFive
  simp only
  split
  · rfl
  · rename_i h
    have h0 : (m.recent ++ [toInteraction a]).length - 5 = 0 := by omega
    rw [h0, List.drop_zero]

/-- `lastFive` keeps at most five records. -/
theorem lastFive_length_le (l : List Interaction) : (lastFive l).length ≤ 5 := by
  unfold lastFive
  simp only [List.length_drop]
  omega

/-- Keeping the last five of a partial history and then of the extended
history is the same as trimming the extended history once. -/
theorem lastFive_append (x y : List Interaction) :
    lastFive (lastFive x ++ y) = lastFive (x ++ y) := by
  unfold lastFive
  rcases le_or_lt x.length 5 with h | h
  · have h0 : x.length - 5 = 0 := by omega
    rw [h0, List.drop_zero]
  · rw [List.drop_append_eq_append_drop, List.drop_append_eq_append_drop, List.drop_drop]
    have e1 : x.length - 5 +
        ((x.drop (x.length - 5) ++ y).length - 5) = (x ++ y).length - 5 := by
      simp only [List.length_append, List.length_drop]
      omega
    have e2 : (x.drop (x.length - 5) ++ y).length - 5 - (x.drop (x.length - 5)).length =
        (x ++ y).length - 5 - x.length := by
      simp only [List.length_append, List.length_drop]
      omega
    rw [e1, e2]

/-- Folding `add_interaction` from any small-enough memory yields the
trimmed concatenation of old and new records. -/
theorem foldl_add_interaction_recent (args : List AddArgs) (m : ConversationMemory)
    (hm : m.recent.length ≤ 5) :
    (args.foldl add_interaction m).recent = lastFive (m.recent ++ args.map toInteraction) := by
  induction args generalizing m with
  | nil =>
    have h0 : m.recent.length - 5 = 0 := by omega
    simp [lastFive, h0]
  | cons a args ih =>
    have step := add_interaction_recent m a
    have hle : (add_interaction m a).recent.length ≤ 5 := by
      rw [step]; exact lastFive_length_le _
    calc (List.foldl add_interaction m (a :: args)).recent
        = lastFive ((add_interaction m a).recent ++ args.map toInteraction) := ih _ hle
      _ = lastFive (lastFive (m.recent ++ [toInteraction a]) ++ args.map toInteraction) := by
          rw [step]
      _ = lastFive ((m.recent ++ [toInteraction a]) ++ args.map toInteraction) :=
          lastFive_append _ _
      _ = lastFive (m.recent ++ (a :: args).map toInteraction) := by
          rw [List.append_assoc]
          rfl

/-- The history after any run from a fresh memory is the most recent five
of all inserted records. -/
theorem runMemory_recent (args : List AddArgs) :
    (runMemory args).recent = (args.map toInteraction).drop (args.length - 5) := by
  have h := foldl_add_interaction_recent args ConversationMemory.empty (by simp [ConversationMemory.empty])
  have hnil : ConversationMemory.empty.recent ++ args.map toInteraction = args.map toInteraction := by
    simp [ConversationMemory.empty]
  rw [hnil] at h
  rw [show runMemory args = args.foldl add_interaction ConversationMemory.empty from rfl, h]
  unfold lastFive
  rw [List.length_map]

/-- C5: after any sequence of `add_interaction` calls the stored history
holds at most 5 records, and it is exactly the suffix of the full record
sequence in insertion order — the evicted records are always the oldest
(pure FIFO; no operation other than insertion affects the history). -/
theorem C5_memory_bounded_fifo (args : List AddArgs) :
    (runMemory args).recent.length ≤ 5 ∧
    (runMemory args).recent = (args.map toInteraction).drop (args.length - 5) := by
  refine ⟨?_, runMemory_recent args⟩
  rw [runMemory_recent args]
  simp only [List.length_drop, List.length_map]
  omega

/-! ## Context snapshot: persistence and frame conditions (C6, C7) -/

/-- The snapshot after a fold of `add_interaction` is the fold of
`updateContext` over the records alone: the history (and its trimming)
never feeds back into the snapshot. -/
theorem foldl_add_interaction_context (args : List AddArgs) (m : ConversationMemory) :
    (args.foldl add_interaction m).context =
      args.foldl (fun c a => updateContext c (toInteraction a)) m.context := by
  induction args generalizing m with
  | nil => rfl
  | cons a args ih => exact ih _

/-- `updateContext` leaves `customer_email` alone when the record has no
truthy `Email` entity. -/
theorem updateContext_customer_email_frame (ctx : ConvContext) (i : Interaction)
    (h : truthyS (lookupAssoc i.entities "Email") = false) :
    (updateContext ctx i).customer_email = ctx.customer_email := by
  unfold updateContext
  simp only [h, Bool.false_eq_true, if_false]
  split_ifs <;> rfl

/-- `updateContext` leaves `recent_products` alone when neither guarded
assignment fires. -/
theorem updateContext_recent_products_frame (ctx : ConvContext) (i : Interaction)
    (h : writesRecentProducts i = false) :
    (updateContext ctx i).recent_products = ctx.recent_products := by
  unfold writesRecentProducts at h
  unfold updateContext
  simp only [Bool.or_eq_false_iff, Bool.and_eq_false_iff] at h
  obtain ⟨h1, h2⟩ := h
  split_ifs <;> simp_all

/-- `updateContext` leaves `last_promo_code` alone unless the promotion
branch fires with a truthy promo code. -/
theorem updateContext_promo_frame (ctx : ConvContext) (i : Interaction)
    (h : ¬(i.intent = "EARLY_RISERS_PROMOTION" ∧ i.key_info.truthy = true ∧
        truthyS i.key_info.promo_code = true)) :
    (updateContext ctx i).last_promo_code = ctx.last_promo_code := by
  unfold updateContext
  split_ifs <;> simp_all

/-- `updateContext` leaves `last_order_lookup` alone unless the intent is
`ORDER_STATUS` with a non-empty `key_info`. -/
theorem updateContext_order_lookup_frame (ctx : ConvContext) (i : Interaction)
    (h : ¬(i.intent = "ORDER_STATUS" ∧ i.key_info.truthy = true)) :
    (updateContext ctx i).last_order_lookup = ctx.last_order_lookup := by
  unfold updateContext
  split_ifs <;> simp_all

/-- Folded frame condition for `recent_products`. -/
theorem foldl_update_recent_products_frame (post : List AddArgs) (c : ConvContext)
    (h : ∀ a ∈ post, writesRecentProducts (toInteraction a) = false) :
    (post.foldl (fun c a => updateContext c (toInteraction a)) c).recent_products =
      c.recent_products := by
  induction post generalizing c with
  | nil => rfl
  | cons a post ih =>
    rw [List.foldl_cons, ih _ (fun b hb => h b (List.mem_cons_of_mem _ hb)),
      updateContext_recent_products_frame _ _ (h a (List.mem_cons_self _ _))]

/-- Folded frame condition for `customer_email`. -/
theorem foldl_update_customer_email_frame (post : List AddArgs) (c : ConvContext)
    (h : ∀ a ∈ post, truthyS (lookupAssoc (toInteraction a).entities "Email") = false) :
    (post.foldl (fun c a => updateContext c (toInteraction a)) c).customer_email =
      c.customer_email := by
  induction post generalizing c with
  | nil => rfl
  | cons a post ih =>
    rw [List.foldl_cons, ih _ (fun b hb => h b (List.mem_cons_of_mem _ hb)),
      updateContext_customer_email_frame _ _ (h a (List.mem_cons_self _ _))]

/-- C6: the context snapshot is computed incrementally from each newly
inserted record only (first part: it equals a fold of `updateContext` over
all records, independent of the bounded history), so a snapshot field set
at some turn stays readable at every later turn until a later relevant turn
overwrites it — even when at least five later turns have evicted the
originating record from the bounded history (last part). -/
theorem C6_snapshot_outlives_history (pre post : List AddArgs) :
    ((runMemory (pre ++ post)).context =
      (pre ++ post).foldl (fun c a => updateContext c (toInteraction a)) ConvContext.empty) ∧
    ((∀ a ∈ post, writesRecentProducts (toInteraction a) = false) →
      (runMemory (pre ++ post)).context.recent_products =
        (runMemory pre).context.recent_products) ∧
    ((∀ a ∈ post, truthyS (lookupAssoc (toInteraction a).entities "Email") = false) →
      (runMemory (pre ++ post)).context.customer_email =
        (runMemory pre).context.customer_email) ∧
    (5 ≤ post.length →
      (runMemory (pre ++ post)).recent = (post.map toInteraction).drop (post.length - 5)) := by
  have hsplit : runMemory (pre ++ post) = post.foldl add_interaction (runMemory pre) := by
    unfold runMemory
    rw [List.foldl_append]
  refine ⟨?_, ?_, ?_, ?_⟩
  · exact foldl_add_interaction_context _ _
  · intro h
    rw [hsplit, foldl_add_interaction_context]
    exact foldl_update_recent_products_frame _ _ h
  · intro h
    rw [hsplit, foldl_add_interaction_context]
    exact foldl_update_customer_email_frame _ _ h
  · intro h
    have hc5 := runMemory_recent (pre ++ post)
    rw [hc5, List.map_append, List.drop_append_eq_append_drop]
    have hx : (pre.map toInteraction).drop ((pre ++ post).length - 5) = [] := by
      apply List.drop_eq_nil_of_le
      simp only [List.length_map, List.length_append]
      omega
    rw [hx, List.nil_append]
    congr 1
    simp only [List.length_map, List.length_append]
    omega

/-- A product-recommendation turn whose `key_info` mentions a product. -/
def c6seed : AddArgs :=
  { timestamp := "t0", intent := "PRODUCT_RECOMMENDATION", query := "recommend a backpack",
    entities := [], agent_used := "ProductRecommendationAgent",
    key_info := some { KeyInfo.empty with products_mentioned := some ["SOBP001"] } }

/-- An unrelated turn that writes nothing into the snapshot. -/
def c6filler : AddArgs :=
  { timestamp := "t1", intent := "UNKNOWN", query := "hello", entities := [],
    agent_used := "None", key_info := none }

/-- Witness for C6: the products mentioned at turn 0 are still in the
snapshot after five further turns, although those five turns fill the whole
bounded history and the originating record is evicted. -/
theorem C6_snapshot_outlives_history_witness :
    (runMemory ([c6seed] ++ List.replicate 5 c6filler)).context.recent_products =
      some ["SOBP001"] ∧
    (runMemory ([c6seed] ++ List.replicate 5 c6filler)).recent =
      (List.replicate 5 c6filler).map toInteraction := by
  have h := C6_snapshot_outlives_history [c6seed] (List.replicate 5 c6filler)
  refine ⟨?_, ?_⟩
  · rw [h.2.1 (by decide)]
    rfl
  · have h4 := h.2.2.2 (by decide)
    simpa using h4

/-- C7 (amended): on every `add_interaction`, the snapshot categories
`customer_email`, `recent_products` and `last_promo_code` keep their prior
values whenever the corresponding entries of the new record are absent or
falsy; `last_order_lookup` keeps its prior value whenever the intent is not
`ORDER_STATUS` or `key_info` is empty (but see the counterexample: with
intent `ORDER_STATUS` and a non-empty `key_info` it is rebuilt wholesale,
absent entries becoming nulls). -/
theorem C7_context_nonoverwrite_amended (ctx : ConvContext) (i : Interaction) :
    (truthyS (lookupAssoc i.entities "Email") = false →
      (updateContext ctx i).customer_email = ctx.customer_email) ∧
    (writesRecentProducts i = false →
      (updateContext ctx i).recent_products = ctx.recent_products) ∧
    (¬(i.intent = "EARLY_RISERS_PROMOTION" ∧ i.key_info.truthy = true ∧
        truthyS i.key_info.promo_code = true) →
      (updateContext ctx i).last_promo_code = ctx.last_promo_code) ∧
    (¬(i.intent = "ORDER_STATUS" ∧ i.key_info.truthy = true) →
      (updateContext ctx i).last_order_lookup = ctx.last_order_lookup) :=
  ⟨updateContext_customer_email_frame ctx i,
   updateContext_recent_products_frame ctx i,
   updateContext_promo_frame ctx i,
   updateContext_order_lookup_frame ctx i⟩

/-- A snapshot holding data in every category. -/
def c7wCtx : ConvContext :=
  { customer_email := some "x@y.com", last_order_lookup := none,
    recent_products := some ["SOSB006"], last_promo_code := some "EARLY5X" }

/-- A turn that supplies none of the snapshot-relevant entries. -/
def c7wInt : Interaction :=
  { timestamp := "t2", intent := "WHO_ARE_YOU", query := "who are you",
    entities := [], agent_used := "None", key_info := KeyInfo.empty }

/-- Witness for the amended C7: nothing is overwritten by a turn that
supplies nothing. -/
theorem C7_context_nonoverwrite_amended_witness :
    (updateContext c7wCtx c7wInt).customer_email = some "x@y.com" ∧
    (updateContext c7wCtx c7wInt).recent_products = some ["SOSB006"] ∧
    (updateContext c7wCtx c7wInt).last_promo_code = some "EARLY5X" := by
  have h := C7_context_nonoverwrite_amended c7wCtx c7wInt
  exact ⟨(h.1 (by decide)).trans rfl, (h.2.1 (by decide)).trans rfl,
    (h.2.2.1 (by decide)).trans rfl⟩

/-- A snapshot remembering a completed order lookup. -/
def c7ctx : ConvContext :=
  { customer_email := none,
    last_order_lookup :=
      some { order_number := some "#W001",
             customer_name := some "John Doe", products := ["SOBP001"],
             status := some "delivered", last_checked := "t0" },
    recent_products := none, last_promo_code := none }

/-- An `ORDER_STATUS` turn whose `key_info` holds a customer name but no
order number, products or status. -/
def c7int : Interaction :=
  { timestamp := "t1", intent := "ORDER_STATUS", query := "status please",
    entities := [], agent_used := "OrderStatusAgent",
    key_info := { KeyInfo.empty with customer_name := some "Bob" } }

/-- Counterexample to C7 as stated: the new record's `key_info` has no
`order_number` entry, yet `last_order_lookup` is overwritten with an
order-info record whose absent fields became nulls — the prior value
`#W001` is lost. -/
theorem C7_counterexample :
    c7int.key_info.order_number = none ∧
    (updateContext c7ctx c7int).last_order_lookup =
      some { order_number := none, customer_name := some "Bob", products := [],
             status := none, last_checked := "t1" } ∧
    (updateContext c7ctx c7int).last_order_lookup ≠ c7ctx.last_order_lookup := by
  refine ⟨rfl, rfl, ?_⟩
  decide

/-! ## Substring helper lemmas -/

/-- Unfolding equation of `containsList` on a cons cell. -/
theorem containsList_cons (x : List Char) (c : Char) (cs : List Char) :
    containsList x (c :: cs) = (x.isPrefixOf (c :: cs) || containsList x cs) := rfl

/-- A substring of `m` is a substring of `p ++ m`. -/
theorem containsList_append_left (x p m : List Char) (h : containsList x m = true) :
    containsList x (p ++ m) = true := by
  induction p with
  | nil => simpa using h
  | cons a p ih =>
    rw [List.cons_append, containsList_cons, ih, Bool.or_true]

/-- A list is a substring of itself followed by anything. -/
theorem containsList_self_append (x s : List Char) : containsList x (x ++ s) = true := by
  have hp : x.isPrefixOf (x ++ s) = true := by
    rw [List.isPrefixOf_iff_prefix]
    exact List.prefix_append x s
  cases h : x ++ s with
  | nil =>
    have hx : x = [] := by
      cases x
      · rfl
      · simp at h
    subst hx
    rfl
  | cons c cs =>
    rw [h] at hp
    rw [containsList_cons, hp, Bool.true_or]

/-- `String.toList` distributes over append. -/
theorem toList_append (p m : String) : (p ++ m).toList = p.toList ++ m.toList :=
  String.data_append p m

/-- A substring of `m` is a substring of `p ++ m`. -/
theorem containsSub_append_left (p m x : String) (h : containsSub m x = true) :
    containsSub (p ++ m) x = true := by
  unfold containsSub at h ⊢
  rw [toList_append]
  exact containsList_append_left _ _ _ h

/-- The middle part of `p ++ (x ++ s)` is a substring of the whole. -/
theorem containsSub_mid (p x s : String) : containsSub (p ++ (x ++ s)) x = true := by
  apply containsSub_append_left
  unfold containsSub
  rw [toList_append]
  exact containsList_self_append _ _

/-! ## SlotStore and order-lookup helper lemmas -/

/-- `add_entry` never empties the store. -/
theorem add_entry_ne_nil (st : SlotStore) (k v : String) : ¬(add_entry st k v = []) := by
  unfold add_entry
  split
  · rename_i h
    cases st with
    | nil => simp at h
    | cons p st => simp
  · simp

/-- `_generate_order_response` either finds the order — clearing the
store — or leaves the store untouched and reports not-found. -/
theorem generate_order_response_cases (orders : List OrderRec) (name : String)
    (st : SlotStore) (e o : String) (f : Bool) :
    (∃ ord, find_order orders e o = some ord ∧
      generate_order_response orders name st e o f =
        { message := mkAgentMsg name (status_message ord e o), state := [],
          lookup := some (e, o, true), llmCalled := f, action := .completed true }) ∨
    (find_order orders e o = none ∧
      generate_order_response orders name st e o f =
        { message := mkAgentMsg name (not_found_msg o e), state := st,
          lookup := some (e, o, false), llmCalled := f, action := .completed false }) := by
  unfold generate_order_response
  cases h : find_order orders e o with
  | none => exact Or.inr ⟨rfl, rfl⟩
  | some ord => exact Or.inl ⟨ord, rfl, rfl⟩

/-- On a Found lookup the response clears the store. -/
theorem generate_found_state (orders : List OrderRec) (name : String) (st : SlotStore)
    (a b : String) (f : Bool) (e o : String)
    (h : (generate_order_response orders name st a b f).lookup = some (e, o, true)) :
    (generate_order_response orders name st a b f).state = [] := by
  rcases generate_order_response_cases orders name st a b f with ⟨ord, _, heq⟩ | ⟨_, heq⟩ <;>
    (rw [heq] at h ⊢; try simp_all)

/-- On a Not-Found lookup the response leaves the store untouched. -/
theorem generate_notfound_state (orders : List OrderRec) (name : String) (st : SlotStore)
    (a b : String) (f : Bool) (e o : String)
    (h : (generate_order_response orders name st a b f).lookup = some (e, o, false)) :
    (generate_order_response orders name st a b f).state = st := by
  rcases generate_order_response_cases orders name st a b f with ⟨ord, _, heq⟩ | ⟨_, heq⟩ <;>
    (rw [heq] at h ⊢; try simp_all)

/-- A completion response never comes from the invalid-order-format return
site. -/
theorem generate_action_ne_invalid (orders : List OrderRec) (name : String) (st : SlotStore)
    (a b : String) (f : Bool) :
    ¬((generate_order_response orders name st a b f).action = Action.invalidOrderFormat) := by
  rcases generate_order_response_cases orders name st a b f with ⟨ord, _, heq⟩ | ⟨_, heq⟩ <;>
    rw [heq] <;> simp

/-- A completion response never comes from the need-valid-email return
site. -/
theorem generate_action_ne_needValid (orders : List OrderRec) (name : String) (st : SlotStore)
    (a b : String) (f : Bool) :
    ¬((generate_order_response orders name st a b f).action = Action.needValidEmail) := by
  rcases generate_order_response_cases orders name st a b f with ⟨ord, _, heq⟩ | ⟨_, heq⟩ <;>
    rw [heq] <;> simp

/-- A completion response empties the store only on Found (or when the
store was empty anyway). -/
theorem generate_state_nil (orders : List OrderRec) (name : String) (st : SlotStore)
    (a b : String) (f : Bool)
    (h : (generate_order_response orders name st a b f).state = []) :
    st = [] ∨ ∃ e o, (generate_order_response orders name st a b f).lookup = some (e, o, true) := by
  rcases generate_order_response_cases orders name st a b f with ⟨ord, _, heq⟩ | ⟨_, heq⟩
  · exact Or.inr ⟨a, b, by rw [heq]⟩
  · rw [heq] at h
    exact Or.inl h

/-! ## C1: SlotStore cleared iff a completion attempt returned Found -/

/-- Complete case analysis of the `process` guard chain: exactly one of the
eleven return sites fires, characterized by the Python guard conditions in
evaluation order. -/
theorem process_resolved_spec (jp : String → Option JsonOut) (llm : String → LLMResponse)
    (orders : List OrderRec) (name : String) (st : SlotStore) (query : String)
    (ec oc se so : Option String) :
    ((truthyS ec && truthyS oc) = true ∧
      process_resolved jp llm orders name st query ec oc se so =
        generate_order_response orders name st (tval ec) (tval oc) false) ∨
    ((truthyS ec && truthyS oc) ≠ true ∧ (truthyS se && truthyS oc) = true ∧
      process_resolved jp llm orders name st query ec oc se so =
        generate_order_response orders name st (tval se) (tval oc) false) ∨
    ((truthyS ec && truthyS oc) ≠ true ∧ (truthyS se && truthyS oc) ≠ true ∧
      (truthyS so && truthyS ec) = true ∧
      process_resolved jp llm orders name st query ec oc se so =
        generate_order_response orders name st (tval ec) (tval so) false) ∨
    ((truthyS ec && truthyS oc) ≠ true ∧ (truthyS se && truthyS oc) ≠ true ∧
      (truthyS so && truthyS ec) ≠ true ∧
      (truthyS ec && !truthyS oc && query.toList.contains '@' && (wordCount query == 1)) = true ∧
      process_resolved jp llm orders name st query ec oc se so =
        { message := mkAgentMsg name (email_msg (tval ec)),
          state := add_entry st "email" (tval ec),
          lookup := none, llmCalled := false, action := .storeEmailAskOrder }) ∨
    ((truthyS ec && truthyS oc) ≠ true ∧ (truthyS se && truthyS oc) ≠ true ∧
      (truthyS so && truthyS ec) ≠ true ∧
      (truthyS ec && !truthyS oc && query.toList.contains '@' && (wordCount query == 1)) ≠ true ∧
      (truthyS oc && !truthyS ec) = true ∧
      process_resolved jp llm orders name st query ec oc se so =
        { message := mkAgentMsg name (order_msg (tval oc)),
          state := add_entry st "order_number" (tval oc),
          lookup := none, llmCalled := false, action := .storeOrderAskEmail }) ∨
    ((truthyS ec && truthyS oc) ≠ true ∧ (truthyS se && truthyS oc) ≠ true ∧
      (truthyS so && truthyS ec) ≠ true ∧
      (truthyS ec && !truthyS oc && query.toList.contains '@' && (wordCount query == 1)) ≠ true ∧
      (truthyS oc && !truthyS ec) ≠ true ∧
      (truthyS se && !truthyS oc && !truthyS ec && attemptedOrderCond query) = true ∧
      process_resolved jp llm orders name st query ec oc se so =
        { message := mkAgentMsg name (invalid_order_msg (tval se)),
          state := st, lookup := none, llmCalled := false, action := .invalidOrderFormat }) ∨
    ((truthyS ec && truthyS oc) ≠ true ∧ (truthyS se && truthyS oc) ≠ true ∧
      (truthyS so && truthyS ec) ≠ true ∧
      (truthyS ec && !truthyS oc && query.toList.contains '@' && (wordCount query == 1)) ≠ true ∧
      (truthyS oc && !truthyS ec) ≠ true ∧
      (truthyS se && !truthyS oc && !truthyS ec && attemptedOrderCond query) ≠ true ∧
      (truthyS so && !truthyS ec && !truthyS oc) = true ∧
      process_resolved jp llm orders name st query ec oc se so =
        { message := mkAgentMsg name (email_needed_msg (tval so)),
          state := st, lookup := none, llmCalled := false, action := .needValidEmail }) ∨
    ((truthyS ec && truthyS oc) ≠ true ∧ (truthyS se && truthyS oc) ≠ true ∧
      (truthyS so && truthyS ec) ≠ true ∧
      (truthyS ec && !truthyS oc && query.toList.contains '@' && (wordCount query == 1)) ≠ true ∧
      (truthyS oc && !truthyS ec) ≠ true ∧
      (truthyS se && !truthyS oc && !truthyS ec && attemptedOrderCond query) ≠ true ∧
      (truthyS so && !truthyS ec && !truthyS oc) ≠ true ∧
      (truthyS (resolveFinal jp llm query ec oc se so).final_email &&
        truthyS (resolveFinal jp llm query ec oc se so).final_order) = true ∧
      process_resolved jp llm orders name st query ec oc se so =
        generate_order_response orders name st
          (tval (resolveFinal jp llm query ec oc se so).final_email)
          (tval (resolveFinal jp llm query ec oc se so).final_order)
          (resolveFinal jp llm query ec oc se so).llmUsed) ∨
    ((truthyS ec && truthyS oc) ≠ true ∧ (truthyS se && truthyS oc) ≠ true ∧
      (truthyS so && truthyS ec) ≠ true ∧
      (truthyS ec && !truthyS oc && query.toList.contains '@' && (wordCount query == 1)) ≠ true ∧
      (truthyS oc && !truthyS ec) ≠ true ∧
      (truthyS se && !truthyS oc && !truthyS ec && attemptedOrderCond query) ≠ true ∧
      (truthyS so && !truthyS ec && !truthyS oc) ≠ true ∧
      (truthyS (resolveFinal jp llm query ec oc se so).final_email &&
        truthyS (resolveFinal jp llm query ec oc se so).final_order) ≠ true ∧
      (!truthyS (resolveFinal jp llm query ec oc se so).final_email &&
        !truthyS (resolveFinal jp llm query ec oc se so).final_order) = true ∧
      process_resolved jp llm orders name st query ec oc se so =
        { message := mkAgentMsg name instructions_msg, state := st, lookup := none,
          llmCalled := (resolveFinal jp llm query ec oc se so).llmUsed, action := .askBoth }) ∨
    ((truthyS ec && truthyS oc) ≠ true ∧ (truthyS se && truthyS oc) ≠ true ∧
      (truthyS so && truthyS ec) ≠ true ∧
      (truthyS ec && !truthyS oc && query.toList.contains '@' && (wordCount query == 1)) ≠ true ∧
      (truthyS oc && !truthyS ec) ≠ true ∧
      (truthyS se && !truthyS oc && !truthyS ec && attemptedOrderCond query) ≠ true ∧
      (truthyS so && !truthyS ec && !truthyS oc) ≠ true ∧
      (truthyS (resolveFinal jp llm query ec oc se so).final_email &&
        truthyS (resolveFinal jp llm query ec oc se so).final_order) ≠ true ∧
      (!truthyS (resolveFinal jp llm query ec oc se so).final_email &&
        !truthyS (resolveFinal jp llm query ec oc se so).final_order) ≠ true ∧
      (!truthyS (resolveFinal jp llm query ec oc se so).final_email) = true ∧
      process_resolved jp llm orders name st query ec oc se so =
        { message := mkAgentMsg name
            (missing_email_msg (tval (resolveFinal jp llm query ec oc se so).final_order)),
          state := st, lookup := none,
          llmCalled := (resolveFinal jp llm query ec oc se so).llmUsed,
          action := .askEmailOnly }) ∨
    ((truthyS ec && truthyS oc) ≠ true ∧ (truthyS se && truthyS oc) ≠ true ∧
      (truthyS so && truthyS ec) ≠ true ∧
      (truthyS ec && !truthyS oc && query.toList.contains '@' && (wordCount query == 1)) ≠ true ∧
      (truthyS oc && !truthyS ec) ≠ true ∧
      (truthyS se && !truthyS oc && !truthyS ec && attemptedOrderCond query) ≠ true ∧
      (truthyS so && !truthyS ec && !truthyS oc) ≠ true ∧
      (truthyS (resolveFinal jp llm query ec oc se so).final_email &&
        truthyS (resolveFinal jp llm query ec oc se so).final_order) ≠ true ∧
      (!truthyS (resolveFinal jp llm query ec oc se so).final_email &&
        !truthyS (resolveFinal jp llm query ec oc se so).final_order) ≠ true ∧
      (!truthyS (resolveFinal jp llm query ec oc se so).final_email) ≠ true ∧
      process_resolved jp llm orders name st query ec oc se so =
        { message := mkAgentMsg name
            (missing_order_msg (tval (resolveFinal jp llm query ec oc se so).final_email)),
          state := st, lookup := none,
          llmCalled := (resolveFinal jp llm query ec oc se so).llmUsed,
          action := .askOrderOnly }) := by
  unfold process_resolved
  dsimp only
  by_cases hA : (truthyS ec && truthyS oc) = true
  · rw [if_pos hA]
    exact Or.inl ⟨hA, rfl⟩
  rw [if_neg hA]
  by_cases hB : (truthyS se && truthyS oc) = true
  · rw [if_pos hB]
    exact Or.inr (Or.inl ⟨hA, hB, rfl⟩)
  rw [if_neg hB]
  by_cases hC : (truthyS so && truthyS ec) = true
  · rw [if_pos hC]
    exact Or.inr (Or.inr (Or.inl ⟨hA, hB, hC, rfl⟩))
  rw [if_neg hC]
  by_cases hD : (truthyS ec && !truthyS oc && query.toList.contains '@' &&
      (wordCount query == 1)) = true
  · rw [if_pos hD]
    exact Or.inr (Or.inr (Or.inr (Or.inl ⟨hA, hB, hC, hD, rfl⟩)))
  rw [if_neg hD]
  by_cases hE : (truthyS oc && !truthyS ec) = true
  · rw [if_pos hE]
    exact Or.inr (Or.inr (Or.inr (Or.inr (Or.inl ⟨hA, hB, hC, hD, hE, rfl⟩))))
  rw [if_neg hE]
  by_cases hF : (truthyS se && !truthyS oc && !truthyS ec && attemptedOrderCond query) = true
  · rw [if_pos hF]
    exact Or.inr (Or.inr (Or.inr (Or.inr (Or.inr (Or.inl ⟨hA, hB, hC, hD, hE, hF, rfl⟩)))))
  rw [if_neg hF]
  by_cases hG : (truthyS so && !truthyS ec && !truthyS oc) = true
  · rw [if_pos hG]
    exact Or.inr (Or.inr (Or.inr (Or.inr (Or.inr (Or.inr (Or.inl
      ⟨hA, hB, hC, hD, hE, hF, hG, rfl⟩))))))
  rw [if_neg hG]
  by_cases hH : (truthyS (resolveFinal jp llm query ec oc se so).final_email &&
      truthyS (resolveFinal jp llm query ec oc se so).final_order) = true
  · rw [if_pos hH]
    exact Or.inr (Or.inr (Or.inr (Or.inr (Or.inr (Or.inr (Or.inr (Or.inl
      ⟨hA, hB, hC, hD, hE, hF, hG, hH, rfl⟩)))))))
  rw [if_neg hH]
  by_cases hI : (!truthyS (resolveFinal jp llm query ec oc se so).final_email &&
      !truthyS (resolveFinal jp llm query ec oc se so).final_order) = true
  · rw [if_pos hI]
    exact Or.inr (Or.inr (Or.inr (Or.inr (Or.inr (Or.inr (Or.inr (Or.inr (Or.inl
      ⟨hA, hB, hC, hD, hE, hF, hG, hH, hI, rfl⟩))))))))
  rw [if_neg hI]
  by_cases hJ : (!truthyS (resolveFinal jp llm query ec oc se so).final_email) = true
  · rw [if_pos hJ]
    exact Or.inr (Or.inr (Or.inr (Or.inr (Or.inr (Or.inr (Or.inr (Or.inr (Or.inr (Or.inl
      ⟨hA, hB, hC, hD, hE, hF, hG, hH, hI, hJ, rfl⟩)))))))))
  rw [if_neg hJ]
  exact Or.inr (Or.inr (Or.inr (Or.inr (Or.inr (Or.inr (Or.inr (Or.inr (Or.inr (Or.inr
    ⟨hA, hB, hC, hD, hE, hF, hG, hH, hI, hJ, rfl⟩)))))))))

theorem process_resolved_clear_iff_found (jp : String → Option JsonOut)
    (llm : String → LLMResponse) (orders : List OrderRec) (name : String) (st : SlotStore)
    (query : String) (ec oc se so : Option String) :
    (∀ e o, (process_resolved jp llm orders name st query ec oc se so).lookup = some (e, o, true) →
      (process_resolved jp llm orders name st query ec oc se so).state = []) ∧
    (∀ e o, (process_resolved jp llm orders name st query ec oc se so).lookup = some (e, o, false) →
      (process_resolved jp llm orders name st query ec oc se so).state = st) ∧
    (((process_resolved jp llm orders name st query ec oc se so).action = Action.invalidOrderFormat ∨
      (process_resolved jp llm orders name st query ec oc se so).action = Action.needValidEmail) →
      (process_resolved jp llm orders name st query ec oc se so).state = st ∧
      (process_resolved jp llm orders name st query ec oc se so).lookup = none) ∧
    ((process_resolved jp llm orders name st query ec oc se so).state = [] →
      st = [] ∨ ∃ e o,
        (process_resolved jp llm orders name st query ec oc se so).lookup = some (e, o, true)) := by
  obtain ⟨hA, heq⟩ | ⟨hA, hB, heq⟩ | ⟨hA, hB, hC, heq⟩ | ⟨hA, hB, hC, hD, heq⟩ |
      ⟨hA, hB, hC, hD, hE, heq⟩ | ⟨hA, hB, hC, hD, hE, hF, heq⟩ |
      ⟨hA, hB, hC, hD, hE, hF, hG, heq⟩ | ⟨hA, hB, hC, hD, hE, hF, hG, hH, heq⟩ |
      ⟨hA, hB, hC, hD, hE, hF, hG, hH, hI, heq⟩ |
      ⟨hA, hB, hC, hD, hE, hF, hG, hH, hI, hJ, heq⟩ |
      ⟨hA, hB, hC, hD, hE, hF, hG, hH, hI, hJ, heq⟩ :=
    process_resolved_spec jp llm orders name st query ec oc se so <;>
  rw [heq] <;>
  first
  | exact ⟨fun e o h => generate_found_state _ _ _ _ _ _ e o h,
      fun e o h => generate_notfound_state _ _ _ _ _ _ e o h,
      fun hc => hc.elim
        (fun h => absurd h (generate_action_ne_invalid _ _ _ _ _ _))
        (fun h => absurd h (generate_action_ne_needValid _ _ _ _ _ _)),
      fun hs => generate_state_nil _ _ _ _ _ _ hs⟩
  | (refine ⟨by simp, by simp, by simp, ?_⟩
     intro hs
     first
     | exact absurd hs (add_entry_ne_nil _ _ _)
     | exact Or.inl hs)

/-- C1: on every turn, the store is emptied exactly when a completion
attempt returned Found; a Not-Found attempt and the two format-failure
returns leave the store exactly as it was; no other return empties a
non-empty store. -/
theorem C1_clear_iff_found (jp : String → Option JsonOut) (llm : String → LLMResponse)
    (orders : List OrderRec) (name : String) (st : SlotStore)
    (query : String) (entities : EntitiesMeta) :
    (∀ e o, (process jp llm orders name st query entities).lookup = some (e, o, true) →
      (process jp llm orders name st query entities).state = []) ∧
    (∀ e o, (process jp llm orders name st query entities).lookup = some (e, o, false) →
      (process jp llm orders name st query entities).state = st) ∧
    (((process jp llm orders name st query entities).action = Action.invalidOrderFormat ∨
      (process jp llm orders name st query entities).action = Action.needValidEmail) →
      (process jp llm orders name st query entities).state = st ∧
      (process jp llm orders name st query entities).lookup = none) ∧
    ((process jp llm orders name st query entities).state = [] →
      st = [] ∨ ∃ e o, (process jp llm orders name st query entities).lookup = some (e, o, true)) := by
  unfold process
  exact process_resolved_clear_iff_found jp llm orders name st query _ _ _ _

/-! ## Further helper lemmas on the embedded pieces -/

/-- The `llmCalled` instrumentation field of a completion response is the
flag passed in. -/
theorem generate_llmCalled (orders : List OrderRec) (name : String) (st : SlotStore)
    (a b : String) (f : Bool) :
    (generate_order_response orders name st a b f).llmCalled = f := by
  rcases generate_order_response_cases orders name st a b f with ⟨ord, _, heq⟩ | ⟨_, heq⟩ <;>
    rw [heq]

/-- Python `a or b` is `b` when `a` is falsy. -/
theorem pyOr_of_false (a b : Option String) (h : truthyS a = false) : pyOr a b = b := by
  unfold pyOr
  rw [h, if_neg Bool.false_ne_true]

/-- Python `a or b` is `a` when `a` is truthy. -/
theorem pyOr_of_true (a b : Option String) (h : truthyS a = true) : pyOr a b = a := by
  unfold pyOr
  rw [h, if_pos rfl]

/-- A falsy Python `or` means both operands were falsy. -/
theorem truthyS_pyOr_false (a b : Option String) (h : truthyS (pyOr a b) = false) :
    truthyS a = false ∧ truthyS b = false := by
  unfold pyOr at h
  by_cases ha : truthyS a = true
  · rw [if_pos ha] at h
    rw [ha] at h
    cases h
  · have ha' : truthyS a = false := by
      cases hx : truthyS a
      · rfl
      · exact absurd hx ha
    rw [if_neg ha] at h
    exact ⟨ha', h⟩

/-- The LLM fallback runs exactly when the turn resolved neither value. -/
theorem resolveFinal_llmUsed (jp : String → Option JsonOut) (llm : String → LLMResponse)
    (query : String) (ec oc se so : Option String) :
    (resolveFinal jp llm query ec oc se so).llmUsed = (!truthyS ec && !truthyS oc) := rfl

/-- When the turn resolved nothing and the fallback extraction also yields
nothing, the final values degrade to the stored ones. -/
theorem resolveFinal_of_none (jp : String → Option JsonOut) (llm : String → LLMResponse)
    (query : String) (ec oc se so : Option String)
    (hec : truthyS ec = false) (hoc : truthyS oc = false)
    (hex : extract_order_info jp llm query = (none, none)) :
    resolveFinal jp llm query ec oc se so =
      { llmUsed := true, final_email := se, final_order := so } := by
  unfold resolveFinal
  dsimp only
  have hll : (!truthyS ec && !truthyS oc) = true := by rw [hec, hoc]; rfl
  rw [hll, if_pos rfl, if_pos rfl, if_pos rfl, hex]
  dsimp only
  rw [pyOr_of_false ec none hec, pyOr_of_false oc none hoc,
    pyOr_of_false none se rfl, pyOr_of_false none so rfl]

/-! ## Return-site characterizations used by several claims -/

/-- With a truthy stored e-mail, nothing resolved this turn and a digit in
the input, the format-correction return fires: message from the template
with the stored e-mail, state untouched, no lookup, no LLM call. -/
theorem process_resolved_invalid_format (jp : String → Option JsonOut)
    (llm : String → LLMResponse) (orders : List OrderRec) (name : String) (st : SlotStore)
    (query : String) (ec oc se so : Option String)
    (hse : truthyS se = true) (hec : truthyS ec = false) (hoc : truthyS oc = false)
    (hd : attemptedOrderCond query = true) :
    process_resolved jp llm orders name st query ec oc se so =
      { message := mkAgentMsg name (invalid_order_msg (tval se)),
        state := st, lookup := none, llmCalled := false, action := .invalidOrderFormat } := by
  obtain ⟨hA, heq⟩ | ⟨hA, hB, heq⟩ | ⟨hA, hB, hC, heq⟩ | ⟨hA, hB, hC, hD, heq⟩ |
      ⟨hA, hB, hC, hD, hE, heq⟩ | ⟨hA, hB, hC, hD, hE, hF, heq⟩ |
      ⟨hA, hB, hC, hD, hE, hF, hG, heq⟩ | ⟨hA, hB, hC, hD, hE, hF, hG, hH, heq⟩ |
      ⟨hA, hB, hC, hD, hE, hF, hG, hH, hI, heq⟩ |
      ⟨hA, hB, hC, hD, hE, hF, hG, hH, hI, hJ, heq⟩ |
      ⟨hA, hB, hC, hD, hE, hF, hG, hH, hI, hJ, heq⟩ :=
    process_resolved_spec jp llm orders name st query ec oc se so <;>
  first
  | exact heq
  | (exfalso; simp_all)

/-- With nothing stored and only an identity token resolved on a
standalone-e-mail turn, the store-A return fires. -/
theorem process_resolved_store_email (jp : String → Option JsonOut)
    (llm : String → LLMResponse) (orders : List OrderRec) (name : String) (st : SlotStore)
    (query : String) (ec oc se so : Option String)
    (hec : truthyS ec = true) (hoc : truthyS oc = false)
    (hat : query.toList.contains '@' = true) (hw : (wordCount query == 1) = true)
    (hse : truthyS se = false) (hso : truthyS so = false) :
    process_resolved jp llm orders name st query ec oc se so =
      { message := mkAgentMsg name (email_msg (tval ec)),
        state := add_entry st "email" (tval ec),
        lookup := none, llmCalled := false, action := .storeEmailAskOrder } := by
  obtain ⟨hA, heq⟩ | ⟨hA, hB, heq⟩ | ⟨hA, hB, hC, heq⟩ | ⟨hA, hB, hC, hD, heq⟩ |
      ⟨hA, hB, hC, hD, hE, heq⟩ | ⟨hA, hB, hC, hD, hE, hF, heq⟩ |
      ⟨hA, hB, hC, hD, hE, hF, hG, heq⟩ | ⟨hA, hB, hC, hD, hE, hF, hG, hH, heq⟩ |
      ⟨hA, hB, hC, hD, hE, hF, hG, hH, hI, heq⟩ |
      ⟨hA, hB, hC, hD, hE, hF, hG, hH, hI, hJ, heq⟩ |
      ⟨hA, hB, hC, hD, hE, hF, hG, hH, hI, hJ, heq⟩ :=
    process_resolved_spec jp llm orders name st query ec oc se so <;>
  first
  | exact heq
  | (exfalso; simp_all)

/-- With a truthy stored e-mail and only a reference token resolved this
turn, completion is attempted with the stored e-mail and the new token. -/
theorem process_resolved_stored_A_new_B (jp : String → Option JsonOut)
    (llm : String → LLMResponse) (orders : List OrderRec) (name : String) (st : SlotStore)
    (query : String) (ec oc se so : Option String)
    (hse : truthyS se = true) (hoc : truthyS oc = true) (hec : truthyS ec = false) :
    process_resolved jp llm orders name st query ec oc se so =
      generate_order_response orders name st (tval se) (tval oc) false := by
  obtain ⟨hA, heq⟩ | ⟨hA, hB, heq⟩ | ⟨hA, hB, hC, heq⟩ | ⟨hA, hB, hC, hD, heq⟩ |
      ⟨hA, hB, hC, hD, hE, heq⟩ | ⟨hA, hB, hC, hD, hE, hF, heq⟩ |
      ⟨hA, hB, hC, hD, hE, hF, hG, heq⟩ | ⟨hA, hB, hC, hD, hE, hF, hG, hH, heq⟩ |
      ⟨hA, hB, hC, hD, hE, hF, hG, hH, hI, heq⟩ |
      ⟨hA, hB, hC, hD, hE, hF, hG, hH, hI, hJ, heq⟩ |
      ⟨hA, hB, hC, hD, hE, hF, hG, hH, hI, hJ, heq⟩ :=
    process_resolved_spec jp llm orders name st query ec oc se so <;>
  first
  | exact heq
  | (exfalso; simp_all)

/-! ## Concrete fixtures for witnesses and counterexamples -/

/-- A JSON decoder that always fails. -/
def jpNone : String → Option JsonOut := fun _ => none

/-- A model call that always fails. -/
def llmFail : String → LLMResponse := fun _ => { success := false, content := "" }

/-- Empty coordinator entities. -/
def entNone : EntitiesMeta := { Email := none, OrderNumber := none }

/-- Two orders mirroring the repository's demo data referenced by its
tests. -/
def ordersDemo : List OrderRec :=
  [{ Email := some "john.doe@example.com", OrderNumber := some "#W001",
     Status := some "delivered", TrackingNumber := some "TRK123456789",
     CustomerName := some "John Doe", ProductsOrdered := some ["SOBP001", "SOWB004"] },
   { Email := some "ethan.harris@example.com", OrderNumber := some "#W007",
     Status := some "fulfilled", TrackingNumber := none,
     CustomerName := some "Ethan Harris", ProductsOrdered := some ["SOBP001", "SOSB006"] }]

/-! ## C2: structurally invalid B with stored A -/

/-- C2 (amended): whenever SlotStore holds a truthy identity token, the
turn resolves neither field, and the input contains a digit (the code's
attempted-order-number heuristic), the completion collaborator is not
invoked, the LLM fallback is not invoked, the store is unchanged, and the
returned message is the format-correction template carrying the stored
identity token unmodified.  (The digit condition is necessary: see the
counterexample, where a digit-free input reaches the completion
collaborator through the LLM fallback.) -/
theorem C2_invalid_B_shortcircuit_amended (jp : String → Option JsonOut)
    (llm : String → LLMResponse) (orders : List OrderRec) (name : String) (st : SlotStore)
    (query : String) (entities : EntitiesMeta)
    (hse : truthyS (get_value st "email") = true)
    (hec : truthyS (pyOr entities.Email (extract_email_from_text query)) = false)
    (hoc : truthyS (pyOr entities.OrderNumber (extract_order_number_from_text query)) = false)
    (hd : attemptedOrderCond query = true) :
    (process jp llm orders name st query entities).lookup = none ∧
    (process jp llm orders name st query entities).llmCalled = false ∧
    (process jp llm orders name st query entities).state = st ∧
    (process jp llm orders name st query entities).message.content =
      invalid_order_msg (tval (get_value st "email")) ∧
    containsSub (process jp llm orders name st query entities).message.content
      (tval (get_value st "email")) = true := by
  unfold process
  rw [process_resolved_invalid_format jp llm orders name st query _ _ _ _ hse hec hoc hd]
  refine ⟨rfl, rfl, rfl, rfl, ?_⟩
  exact containsSub_mid _ _ _

/-- Witness for the amended C2: stored `ethan.harris@example.com`, input
`"677623"`. -/
theorem C2_invalid_B_shortcircuit_amended_witness :
    (process jpNone llmFail ordersDemo "OrderStatusAgent"
      [("email", "ethan.harris@example.com")] "677623" entNone).lookup = none ∧
    (process jpNone llmFail ordersDemo "OrderStatusAgent"
      [("email", "ethan.harris@example.com")] "677623" entNone).state =
      [("email", "ethan.harris@example.com")] := by
  have h := C2_invalid_B_shortcircuit_amended jpNone llmFail ordersDemo "OrderStatusAgent"
    [("email", "ethan.harris@example.com")] "677623" entNone rfl rfl rfl rfl
  exact ⟨h.1, h.2.2.1⟩

/-- A JSON decoder returning an order-number field, as `json.loads` would
on the fixture content. -/
def jpC2 : String → Option JsonOut :=
  fun _ => some { email := none, order_number := some "677623" }

/-- A model call that answers with a JSON object holding an order
number. -/
def llmC2 : String → LLMResponse :=
  fun _ => { success := true, content := "\x7b\x22order_number\x22: \x22677623\x22\x7d" }

/-- Counterexample to C2 as stated: the input has no parsable reference
token and no identity token, an identity token is stored — yet the
completion collaborator IS invoked, because the input contains no digit, so
the turn falls through to the free-form LLM extraction, whose result
(a structurally invalid reference token) reaches the order lookup. -/
theorem C2_counterexample :
    extract_order_number_from_text "my order is gone" = none ∧
    extract_email_from_text "my order is gone" = none ∧
    (process jpC2 llmC2 [] "OrderStatusAgent" [("email", "ethan.harris@example.com")]
      "my order is gone" entNone).lookup =
      some ("ethan.harris@example.com", "677623", false) ∧
    (process jpC2 llmC2 [] "OrderStatusAgent" [("email", "ethan.harris@example.com")]
      "my order is gone" entNone).llmCalled = true :=
  ⟨rfl, rfl, rfl, rfl⟩

/-! ## C3: the invalid-input scenario with literal "677623" -/

set_option maxRecDepth 40000 in
/-- C3 (code bug): after storing `ethan.harris@example.com` and receiving
`"677623"`, the response acknowledges the stored identity token, shows the
valid example format, and the store still holds the token — but the
message does NOT mention the literal `"677623"`, although the spec and the
repository's own regression tests (`test_order_status_core.py`,
`assertIn('677623', response2)`) require it. -/
theorem C3_677623_message_omits_input :
    (process jpNone llmFail ordersDemo "OrderStatusAgent" [] "ethan.harris@example.com"
      entNone).state = [("email", "ethan.harris@example.com")] ∧
    containsSub (process jpNone llmFail ordersDemo "OrderStatusAgent"
      [("email", "ethan.harris@example.com")] "677623" entNone).message.content
      "ethan.harris@example.com" = true ∧
    containsSub (process jpNone llmFail ordersDemo "OrderStatusAgent"
      [("email", "ethan.harris@example.com")] "677623" entNone).message.content
      "#W001" = true ∧
    containsSub (process jpNone llmFail ordersDemo "OrderStatusAgent"
      [("email", "ethan.harris@example.com")] "677623" entNone).message.content
      "677623" = false ∧
    get_value (process jpNone llmFail ordersDemo "OrderStatusAgent"
      [("email", "ethan.harris@example.com")] "677623" entNone).state "email" =
      some "ethan.harris@example.com" :=
  ⟨rfl, rfl, rfl, rfl, rfl⟩

/-! ## C4: store A, ask for B; then complete with stored A and new B -/

/-- C4 (amended): part one — when the store holds nothing, only an identity
token is resolved, AND the raw input is a single whitespace-delimited token
containing `@`, the token is stored and the reply asks for the reference
token showing the example format (the standalone-token condition is
necessary: see the counterexample).  Part two — on a later turn with a
truthy stored identity token and only a reference token resolved,
completion is attempted with the stored identity token and the new
reference token. -/
theorem C4_store_A_then_complete_amended :
    (∀ (jp : String → Option JsonOut) (llm : String → LLMResponse) (orders : List OrderRec)
      (name query : String) (entities : EntitiesMeta),
      truthyS (pyOr entities.Email (extract_email_from_text query)) = true →
      truthyS (pyOr entities.OrderNumber (extract_order_number_from_text query)) = false →
      query.toList.contains '@' = true →
      wordCount query = 1 →
      (process jp llm orders name [] query entities).state =
        [("email", tval (pyOr entities.Email (extract_email_from_text query)))] ∧
      (process jp llm orders name [] query entities).lookup = none ∧
      (process jp llm orders name [] query entities).message.content =
        email_msg (tval (pyOr entities.Email (extract_email_from_text query))) ∧
      containsSub (process jp llm orders name [] query entities).message.content
        (tval (pyOr entities.Email (extract_email_from_text query))) = true ∧
      containsSub (process jp llm orders name [] query entities).message.content
        "#W001" = true) ∧
    (∀ (jp : String → Option JsonOut) (llm : String → LLMResponse) (orders : List OrderRec)
      (name : String) (st : SlotStore) (query : String) (entities : EntitiesMeta),
      truthyS (get_value st "email") = true →
      truthyS (pyOr entities.OrderNumber (extract_order_number_from_text query)) = true →
      truthyS (pyOr entities.Email (extract_email_from_text query)) = false →
      ∃ found, (process jp llm orders name st query entities).lookup =
        some (tval (get_value st "email"),
          tval (pyOr entities.OrderNumber (extract_order_number_from_text query)), found)) := by
  constructor
  · intro jp llm orders name query entities hec hoc hat hw
    unfold process
    rw [process_resolved_store_email jp llm orders name [] query
      (pyOr entities.Email (extract_email_from_text query))
      (pyOr entities.OrderNumber (extract_order_number_from_text query))
      (get_value [] "email") (get_value [] "order_number") hec hoc hat
      (by rw [hw]; rfl) rfl rfl]
    refine ⟨rfl, rfl, rfl, containsSub_mid _ _ _, ?_⟩
    apply containsSub_append_left
    apply containsSub_append_left
    rfl
  · intro jp llm orders name st query entities hse hoc hec
    unfold process
    rw [process_resolved_stored_A_new_B jp llm orders name st query _ _ _ _ hse hoc hec]
    rcases generate_order_response_cases orders name st
        (tval (get_value st "email"))
        (tval (pyOr entities.OrderNumber (extract_order_number_from_text query))) false with
      ⟨ord, _, heq⟩ | ⟨_, heq⟩
    · exact ⟨true, by rw [heq]⟩
    · exact ⟨false, by rw [heq]⟩

/-- Witness for the amended C4: the two-turn e-mail-then-order scenario of
the repository's tests. -/
theorem C4_store_A_then_complete_amended_witness :
    (process jpNone llmFail ordersDemo "OrderStatusAgent" [] "ethan.harris@example.com"
      entNone).state = [("email", "ethan.harris@example.com")] ∧
    containsSub (process jpNone llmFail ordersDemo "OrderStatusAgent" []
      "ethan.harris@example.com" entNone).message.content "#W001" = true ∧
    (∃ found, (process jpNone llmFail ordersDemo "OrderStatusAgent"
      [("email", "ethan.harris@example.com")] "#W007" entNone).lookup =
      some ("ethan.harris@example.com", "#W007", found)) := by
  have h1 := C4_store_A_then_complete_amended.1 jpNone llmFail ordersDemo "OrderStatusAgent"
    "ethan.harris@example.com" entNone rfl rfl rfl rfl
  have h2 := C4_store_A_then_complete_amended.2 jpNone llmFail ordersDemo "OrderStatusAgent"
    [("email", "ethan.harris@example.com")] "#W007" entNone rfl rfl rfl
  exact ⟨h1.1, h1.2.2.2.2, h2⟩

/-- Counterexample to C4 as stated: the identity token arrives from the
coordinator entities while the raw query is a multi-word sentence without
`@`, so the standalone-e-mail guard fails: nothing is stored, the reply
shows no example format, and a later B-only turn cannot combine. -/
theorem C4_counterexample :
    (process jpNone llmFail [] "OrderStatusAgent" [] "check my order please"
      { Email := some "a@b.com", OrderNumber := none }).state = [] ∧
    get_value (process jpNone llmFail [] "OrderStatusAgent" [] "check my order please"
      { Email := some "a@b.com", OrderNumber := none }).state "email" = none ∧
    (process jpNone llmFail [] "OrderStatusAgent" [] "check my order please"
      { Email := some "a@b.com", OrderNumber := none }).action = Action.askOrderOnly ∧
    containsSub (process jpNone llmFail [] "OrderStatusAgent" [] "check my order please"
      { Email := some "a@b.com", OrderNumber := none }).message.content "#W001" = false :=
  ⟨rfl, rfl, rfl, rfl⟩

/-- Witness for C1: the demo order book with a stored slot — a Found
lookup clears the store, a Not-Found lookup preserves it. -/
theorem C1_clear_iff_found_witness :
    (process jpNone llmFail ordersDemo "OrderStatusAgent" [("email", "x@y.com")]
      "Check order #W001 for john.doe@example.com" entNone).state = [] ∧
    (process jpNone llmFail ordersDemo "OrderStatusAgent" [("email", "x@y.com")]
      "Check order #W999 for john.doe@example.com" entNone).state = [("email", "x@y.com")] := by
  have h1 := (C1_clear_iff_found jpNone llmFail ordersDemo "OrderStatusAgent"
    [("email", "x@y.com")] "Check order #W001 for john.doe@example.com" entNone).1
    "john.doe@example.com" "#W001" rfl
  have h2 := (C1_clear_iff_found jpNone llmFail ordersDemo "OrderStatusAgent"
    [("email", "x@y.com")] "Check order #W999 for john.doe@example.com" entNone).2.1
    "john.doe@example.com" "#W999" rfl
  exact ⟨h1, h2⟩

/-! ## C8: fixed resolution precedence; LLM fallback as last resort -/

/-- C8: per field the resolved value obeys the fixed precedence — a truthy
coordinator-entities value wins over text extraction (`pyOr`), the
text-extraction value is used otherwise — and the free-form LLM extraction
runs only when neither the entities nor local pattern matching yielded a
truthy value for either field. -/
theorem C8_precedence_llm_last_resort (jp : String → Option JsonOut)
    (llm : String → LLMResponse) (orders : List OrderRec) (name : String) (st : SlotStore)
    (query : String) (entities : EntitiesMeta) :
    ((process jp llm orders name st query entities).llmCalled = true →
      truthyS entities.Email = false ∧
      truthyS (extract_email_from_text query) = false ∧
      truthyS entities.OrderNumber = false ∧
      truthyS (extract_order_number_from_text query) = false) ∧
    (∀ a t, truthyS a = true → pyOr a t = a) ∧
    (∀ a t, truthyS a = false → pyOr a t = t) := by
  refine ⟨?_, pyOr_of_true, pyOr_of_false⟩
  unfold process
  obtain ⟨hA, heq⟩ | ⟨hA, hB, heq⟩ | ⟨hA, hB, hC, heq⟩ | ⟨hA, hB, hC, hD, heq⟩ |
      ⟨hA, hB, hC, hD, hE, heq⟩ | ⟨hA, hB, hC, hD, hE, hF, heq⟩ |
      ⟨hA, hB, hC, hD, hE, hF, hG, heq⟩ | ⟨hA, hB, hC, hD, hE, hF, hG, hH, heq⟩ |
      ⟨hA, hB, hC, hD, hE, hF, hG, hH, hI, heq⟩ |
      ⟨hA, hB, hC, hD, hE, hF, hG, hH, hI, hJ, heq⟩ |
      ⟨hA, hB, hC, hD, hE, hF, hG, hH, hI, hJ, heq⟩ :=
    process_resolved_spec jp llm orders name st query
      (pyOr entities.Email (extract_email_from_text query))
      (pyOr entities.OrderNumber (extract_order_number_from_text query))
      (get_value st "email") (get_value st "order_number") <;>
  rw [heq] <;> intro h <;>
  first
  | (rw [generate_llmCalled] at h
     first
     | exact absurd h Bool.false_ne_true
     | (rw [resolveFinal_llmUsed, Bool.and_eq_true, Bool.not_eq_true',
          Bool.not_eq_true'] at h
        obtain ⟨hec, hoc⟩ := h
        obtain ⟨h1, h2⟩ := truthyS_pyOr_false _ _ hec
        obtain ⟨h3, h4⟩ := truthyS_pyOr_false _ _ hoc
        exact ⟨h1, h2, h3, h4⟩))
  | (dsimp only at h
     first
     | exact absurd h Bool.false_ne_true
     | (rw [resolveFinal_llmUsed, Bool.and_eq_true, Bool.not_eq_true',
          Bool.not_eq_true'] at h
        obtain ⟨hec, hoc⟩ := h
        obtain ⟨h1, h2⟩ := truthyS_pyOr_false _ _ hec
        obtain ⟨h3, h4⟩ := truthyS_pyOr_false _ _ hoc
        exact ⟨h1, h2, h3, h4⟩))

/-- Witness for C8: a query resolving nothing does call the LLM fallback,
and indeed no source had yielded a value. -/
theorem C8_precedence_llm_last_resort_witness :
    truthyS entNone.Email = false ∧
    truthyS (extract_email_from_text "where is my stuff") = false ∧
    truthyS entNone.OrderNumber = false ∧
    truthyS (extract_order_number_from_text "where is my stuff") = false :=
  (C8_precedence_llm_last_resort jpNone llmFail [] "OrderStatusAgent" []
    "where is my stuff" entNone).1 rfl

/-! ## C9: model-call failure degrades without fault, state preserved -/

/-- When the LLM fallback ran but extracted nothing, the turn leaves the
store untouched and performs no lookup. -/
theorem process_resolved_llm_nothing (jp : String → Option JsonOut)
    (llm : String → LLMResponse) (orders : List OrderRec) (name : String) (st : SlotStore)
    (query : String) (ec oc se so : Option String)
    (hex : extract_order_info jp llm query = (none, none))
    (h : (process_resolved jp llm orders name st query ec oc se so).llmCalled = true) :
    (process_resolved jp llm orders name st query ec oc se so).state = st ∧
    (process_resolved jp llm orders name st query ec oc se so).lookup = none := by
  obtain ⟨hA, heq⟩ | ⟨hA, hB, heq⟩ | ⟨hA, hB, hC, heq⟩ | ⟨hA, hB, hC, hD, heq⟩ |
      ⟨hA, hB, hC, hD, hE, heq⟩ | ⟨hA, hB, hC, hD, hE, hF, heq⟩ |
      ⟨hA, hB, hC, hD, hE, hF, hG, heq⟩ | ⟨hA, hB, hC, hD, hE, hF, hG, hH, heq⟩ |
      ⟨hA, hB, hC, hD, hE, hF, hG, hH, hI, heq⟩ |
      ⟨hA, hB, hC, hD, hE, hF, hG, hH, hI, hJ, heq⟩ |
      ⟨hA, hB, hC, hD, hE, hF, hG, hH, hI, hJ, heq⟩ :=
    process_resolved_spec jp llm orders name st query ec oc se so <;>
  rw [heq] at h ⊢ <;>
  first
  | exact ⟨rfl, rfl⟩
  | (exfalso
     first
     | (dsimp only at h
        exact absurd h Bool.false_ne_true)
     | (rw [generate_llmCalled] at h
        first
        | exact absurd h Bool.false_ne_true
        | (rw [resolveFinal_llmUsed, Bool.and_eq_true, Bool.not_eq_true',
             Bool.not_eq_true'] at h
           obtain ⟨hec, hoc⟩ := h
           rw [resolveFinal_of_none jp llm query _ _ _ _ hec hoc hex] at hH
           dsimp only at hH
           rw [Bool.and_eq_true] at hH
           apply hG
           rw [hH.2, hec, hoc]
           rfl)))

/-- C9: a failed model call, unparseable content, or an undecodable JSON
candidate makes the structured extraction return `(none, none)` without
raising (the embedding is total); and a turn on which the LLM fallback ran
with that empty result completes with the store preserved and no lookup —
the failure never propagates. -/
theorem C9_model_failure_degrades (jp : String → Option JsonOut)
    (llm : String → LLMResponse) (orders : List OrderRec) (name : String) (st : SlotStore)
    (query : String) (entities : EntitiesMeta) :
    ((llm query).success = false → extract_order_info jp llm query = (none, none)) ∧
    (jsonCandidate (llm query).content = none →
      extract_order_info jp llm query = (none, none)) ∧
    (∀ s, jsonCandidate (llm query).content = some s → jp s = none →
      extract_order_info jp llm query = (none, none)) ∧
    (extract_order_info jp llm query = (none, none) →
      (process jp llm orders name st query entities).llmCalled = true →
      (process jp llm orders name st query entities).state = st ∧
      (process jp llm orders name st query entities).lookup = none) := by
  refine ⟨?_, ?_, ?_, ?_⟩
  · intro h
    unfold extract_order_info
    dsimp only
    rw [h, if_neg Bool.false_ne_true]
  · intro h
    unfold extract_order_info
    dsimp only
    by_cases hs : (llm query).success = true
    · rw [if_pos hs, h]
    · rw [if_neg hs]
  · intro s hc hj
    unfold extract_order_info
    dsimp only
    by_cases hs : (llm query).success = true
    · rw [if_pos hs, hc]
      dsimp only
      rw [hj]
    · rw [if_neg hs]
  · intro hex h
    unfold process at h ⊢
    exact process_resolved_llm_nothing jp llm orders name st query _ _ _ _ hex h

/-- Witness for C9: with a failing model call and a stored e-mail, the LLM
fallback runs, returns nothing, and the turn preserves the store. -/
theorem C9_model_failure_degrades_witness :
    (llmFail "anything at all").success = false ∧
    extract_order_info jpNone llmFail "anything at all" = (none, none) ∧
    (process jpNone llmFail [] "OrderStatusAgent" [("email", "x@y.com")] "anything at all"
      entNone).state = [("email", "x@y.com")] ∧
    (process jpNone llmFail [] "OrderStatusAgent" [("email", "x@y.com")] "anything at all"
      entNone).lookup = none := by
  have hc := C9_model_failure_degrades jpNone llmFail [] "OrderStatusAgent"
    [("email", "x@y.com")] "anything at all" entNone
  have hex := hc.1 rfl
  have h4 := hc.2.2.2 hex rfl
  exact ⟨rfl, hex, h4.1, h4.2⟩

end CustomerSvc
